import Mathlib

/-!
Verification development for the Skypin ambient-soundscape engine.

The definitions below are a shallow embedding of the TypeScript sources:

* `src/lib/audioUtils.ts`   — weather-code intensity table, wind-volume curve,
  fade-duration policy, exponential envelope curve;
* `src/lib/soundMapping.ts` — the pure layer resolver `getSoundLayers` and the
  per-biome composition rules (the `Math.random()` accent draws are modelled
  as explicit boolean parameters);
* `src/lib/audioManager.ts` — the playback engine (`play` / `stop` /
  buffer loading / loop scheduling) modelled as a state machine with an
  explicit event trace; asynchronous completions (load resolution, the
  delayed hard-stop of a fading track) are separate step functions;
* `src/lib/audioController.ts` — the soundscape diff/transition, modelled as
  the list of engine commands it issues, in issue order.

JavaScript numbers are modelled as `ℚ` (exact arithmetic) except in the
exponential envelope where `Math.pow` with a real exponent forces `ℝ`.
JS truthiness of optional numeric fields (`x || d`, `if (x)`) is modelled
explicitly by `jsOr` / `jsTruthy`.
-/

namespace Skypin

/-- Sound category classification (`SoundCategory` in `src/types/audio.ts`):
`'base' | 'weather' | 'accent'`. -/
inductive SoundCategory where
  | base
  | weather
  | accent
  deriving DecidableEq, Repr

/-- Time-of-day classification (`TimeOfDay` in `src/lib/biomeUtils.ts`):
`"day" | "evening" | "night"`. -/
inductive TimeOfDay where
  | day
  | evening
  | night
  deriving DecidableEq, Repr

/-- Biome classification (`BiomeType` in `src/lib/biomeDetector.ts`):
`"ocean" | "lake" | "beach" | "desert" | "field" | "forest" | "city"`. -/
inductive BiomeType where
  | ocean
  | lake
  | beach
  | desert
  | field
  | forest
  | city
  deriving DecidableEq, Repr

/-- `WeatherIntensity` from `src/types/audio.ts`. -/
structure WeatherIntensity where
  rain : ℚ
  thunder : ℚ
  snow : Bool
  fog : Bool
  hasPrecipitation : Bool
  deriving DecidableEq, Repr

/-- `SoundLayer` from `src/types/audio.ts`: a descriptor produced by the
resolver.  Optional fields are `Option ℚ`. -/
structure SoundLayer where
  soundId : String
  volume : ℚ
  loop : Bool
  category : SoundCategory
  fadeInDuration : Option ℚ := none
  startDelay : Option ℚ := none
  deriving DecidableEq, Repr

/-- `PlayOptions` from `src/types/audio.ts`.  The source marks `category`
optional with default `'base'` applied inside `play`; we keep it optional. -/
structure PlayOptions where
  volume : ℚ
  loop : Bool
  fadeInDuration : Option ℚ := none
  startDelay : Option ℚ := none
  category : Option SoundCategory := none
  deriving DecidableEq, Repr

/-- JS `x || d` on an optional number: `undefined` and `0` are falsy. -/
def jsOr (x : Option ℚ) (d : ℚ) : ℚ :=
  match x with
  | none => d
  | some v => if v = 0 then d else v

/-- JS truthiness of an optional number (`if (x)`): defined and nonzero. -/
def jsTruthy (x : Option ℚ) : Bool :=
  match x with
  | none => false
  | some v => v ≠ 0

/-- `calculateFadeDuration` (`src/lib/audioUtils.ts`): 12.5 % of the track
length, clamped to [2, 30] seconds. -/
def calculateFadeDuration (trackLengthSeconds : ℚ) : ℚ :=
  let baseFade := trackLengthSeconds * 0.125
  max 2 (min 30 baseFade)

/-- `mapWeatherToIntensity` (`src/lib/audioUtils.ts`): the WMO weather-code to
intensity table, translated branch by branch (the source mutates one record
through a chain of independent `if`s; we thread the record through the same
chain). -/
def mapWeatherToIntensity (weatherCode : ℤ) : WeatherIntensity :=
  let i : WeatherIntensity :=
    { rain := 0, thunder := 0, snow := false, fog := false, hasPrecipitation := false }
  -- Fog codes
  let i := if weatherCode = 45 ∨ weatherCode = 48 then { i with fog := true } else i
  -- Drizzle codes (51-57)
  let i :=
    if 51 ≤ weatherCode ∧ weatherCode ≤ 57 then
      { i with
        rain := if weatherCode ≤ 53 then 0.2 else if weatherCode ≤ 55 then 0.35 else 0.5,
        hasPrecipitation := true }
    else i
  -- Rain codes (61-67)
  let i :=
    if 61 ≤ weatherCode ∧ weatherCode ≤ 67 then
      { i with
        rain := if weatherCode ≤ 63 then 0.4 else if weatherCode ≤ 65 then 0.7 else 0.9,
        hasPrecipitation := true }
    else i
  -- Snow codes (71-77, 85-86)
  let i :=
    if (71 ≤ weatherCode ∧ weatherCode ≤ 77) ∨ weatherCode = 85 ∨ weatherCode = 86 then
      { i with snow := true, hasPrecipitation := true, rain := 0.3 }
    else i
  -- Rain shower codes (80-82)
  let i :=
    if 80 ≤ weatherCode ∧ weatherCode ≤ 82 then
      { i with
        rain := if weatherCode = 80 then 0.5 else if weatherCode = 81 then 0.75 else 1.0,
        hasPrecipitation := true }
    else i
  -- Thunderstorm codes (95-99)
  let i :=
    if 95 ≤ weatherCode ∧ weatherCode ≤ 99 then
      { i with
        rain := 0.8,
        thunder := if weatherCode = 95 then 0.6 else if weatherCode = 96 then 0.8 else 1.0,
        hasPrecipitation := true }
    else i
  i

/-- `calculateWindVolume` (`src/lib/audioUtils.ts`): four-segment piecewise
curve over wind speed in kph. -/
def calculateWindVolume (windSpeedKph : ℚ) : ℚ :=
  if windSpeedKph < 10 then 0.2
  else if windSpeedKph < 25 then 0.2 + ((windSpeedKph - 10) / 15) * 0.3
  else if windSpeedKph < 40 then 0.5 + ((windSpeedKph - 25) / 15) * 0.3
  else min 1.0 (0.8 + ((windSpeedKph - 40) / 20) * 0.2)

/-- `getCitySounds` (`src/lib/soundMapping.ts`). -/
def getCitySounds (timeOfDay : TimeOfDay) (weather : WeatherIntensity)
    (_windSpeedKph : ℚ) (_includeBirds _includeCrickets : Bool) : List SoundLayer :=
  [{ soundId := "traffic_medium_close", volume := 0.5, loop := true,
     category := .base },
   { soundId := "chatter-footsteps_medium", volume := 0.4, loop := true,
     category := .base, fadeInDuration := some 3 },
   { soundId := "traffic_medium_far", volume := 0.3, loop := true,
     category := .base, fadeInDuration := some 4 }] ++
  (if weather.hasPrecipitation then
    [{ soundId := "rain-wind-city-traffic_medium_far",
       volume := min 0.7 (weather.rain * 0.9), loop := true,
       category := .weather, fadeInDuration := some 5 }]
   else []) ++
  (if timeOfDay = .evening then
    [{ soundId := "church-bells_medium_far", volume := 0.25, loop := true,
       category := .accent, fadeInDuration := some 2, startDelay := some 10 }]
   else [])

/-- `getForestSounds` (`src/lib/soundMapping.ts`). -/
def getForestSounds (timeOfDay : TimeOfDay) (weather : WeatherIntensity)
    (windSpeedKph : ℚ) (includeBirds includeCrickets : Bool) : List SoundLayer :=
  let windVolume := calculateWindVolume windSpeedKph
  (if timeOfDay = .day ∧ includeBirds then
    [{ soundId := "birds-forest_light_far", volume := 0.3, loop := true,
       category := .base }]
   else []) ++
  [{ soundId := "wind_forest_medium", volume := max 0.3 (windVolume * 0.7),
     loop := true, category := .base, fadeInDuration := some 4 }] ++
  (if weather.hasPrecipitation then
    [{ soundId := "rain_medium", volume := min 0.65 (weather.rain * 0.8),
       loop := true, category := .weather, fadeInDuration := some 6 }]
   else []) ++
  (if weather.thunder > 0 then
    [{ soundId := "thunder_light_far", volume := min 0.5 (weather.thunder * 0.6),
       loop := true, category := .weather, fadeInDuration := some 3 }]
   else []) ++
  (if (timeOfDay = .evening ∨ timeOfDay = .night) ∧ includeCrickets then
    [{ soundId := "crickets_far",
       volume := if timeOfDay = .night then 0.35 else 0.25,
       loop := true, category := .accent, fadeInDuration := some 8 }]
   else [])

/-- `getFieldSounds` (`src/lib/soundMapping.ts`). -/
def getFieldSounds (timeOfDay : TimeOfDay) (weather : WeatherIntensity)
    (windSpeedKph : ℚ) (includeBirds includeCrickets : Bool) : List SoundLayer :=
  let windVolume := calculateWindVolume windSpeedKph
  (if timeOfDay = .day ∧ includeBirds then
    [{ soundId := "birds_far", volume := 0.05, loop := true, category := .base }]
   else []) ++
  [{ soundId := if windSpeedKph > 20 then "wind_field_strong" else "wind_grass_strong",
     volume := max 0.4 (windVolume * 0.9), loop := true, category := .base,
     fadeInDuration := some 3 }] ++
  (if weather.hasPrecipitation then
    [{ soundId := "rain_light", volume := min 0.6 (weather.rain * 0.75),
       loop := true, category := .weather, fadeInDuration := some 5 }]
   else []) ++
  (if weather.thunder > 0 then
    [{ soundId := "thunder_light_far", volume := min 0.45 (weather.thunder * 0.55),
       loop := true, category := .weather, fadeInDuration := some 3 }]
   else []) ++
  (if (timeOfDay = .evening ∨ timeOfDay = .night) ∧ includeCrickets then
    [{ soundId := "crickets-summer_far",
       volume := if timeOfDay = .night then 0.375 else 0.275,
       loop := true, category := .accent, fadeInDuration := some 10 }]
   else [])

/-- `getBeachSounds` (`src/lib/soundMapping.ts`). -/
def getBeachSounds (timeOfDay : TimeOfDay) (weather : WeatherIntensity)
    (windSpeedKph : ℚ) (includeBirds _includeCrickets : Bool) : List SoundLayer :=
  let windVolume := calculateWindVolume windSpeedKph
  [{ soundId := "waves_medium_close", volume := 0.65, loop := true,
     category := .base }] ++
  (if timeOfDay = .day ∧ includeBirds then
    [{ soundId := "wind_coastal_birds", volume := max 0.2 (windVolume * 0.35),
       loop := true, category := .base, fadeInDuration := some 4 }]
   else
    [{ soundId := "wind_coastal_medium_far", volume := max 0.35 (windVolume * 0.55),
       loop := true, category := .base, fadeInDuration := some 4 }]) ++
  (if weather.hasPrecipitation then
    [{ soundId := "rain_medium", volume := min 0.55 (weather.rain * 0.7),
       loop := true, category := .weather, fadeInDuration := some 5 }]
   else []) ++
  (if weather.thunder > 0 then
    [{ soundId := "thunder_medium_close", volume := min 0.6 (weather.thunder * 0.75),
       loop := true, category := .weather, fadeInDuration := some 2 }]
   else [])

/-- `getLakeSounds` (`src/lib/soundMapping.ts`). -/
def getLakeSounds (timeOfDay : TimeOfDay) (weather : WeatherIntensity)
    (windSpeedKph : ℚ) (includeBirds _includeCrickets includeFrogs : Bool) :
    List SoundLayer :=
  let windVolume := calculateWindVolume windSpeedKph
  [{ soundId := "waves_small_close", volume := 0.5, loop := true,
     category := .base },
   { soundId := "wind_autumn", volume := max 0.25 (windVolume * 0.5),
     loop := true, category := .base, fadeInDuration := some 5 }] ++
  (if timeOfDay = .day ∧ includeBirds then
    [{ soundId := "birds_far", volume := 0.2, loop := true, category := .base,
       fadeInDuration := some 3 }]
   else []) ++
  (if weather.hasPrecipitation then
    [{ soundId := "rain_light", volume := min 0.6 (weather.rain * 0.75),
       loop := true, category := .weather, fadeInDuration := some 6 }]
   else []) ++
  (if weather.thunder > 0 then
    [{ soundId := "thunder_light_far", volume := min 0.5 (weather.thunder * 0.6),
       loop := true, category := .weather, fadeInDuration := some 3 }]
   else []) ++
  (if timeOfDay = .night ∧ includeFrogs then
    [{ soundId := "frogs_close", volume := 0.35, loop := true,
       category := .accent, fadeInDuration := some 12 }]
   else [])

/-- `getOceanSounds` (`src/lib/soundMapping.ts`). -/
def getOceanSounds (_timeOfDay : TimeOfDay) (weather : WeatherIntensity)
    (windSpeedKph : ℚ) (_includeBirds _includeCrickets : Bool) : List SoundLayer :=
  let windVolume := calculateWindVolume windSpeedKph
  [{ soundId := "waves_medium_far", volume := 0.6, loop := true,
     category := .base },
   { soundId := "wind_coastal_medium_far", volume := max 0.4 (windVolume * 0.7),
     loop := true, category := .base, fadeInDuration := some 4 }] ++
  (if weather.hasPrecipitation then
    [{ soundId := "rain_medium", volume := min 0.6 (weather.rain * 0.75),
       loop := true, category := .weather, fadeInDuration := some 5 }]
   else []) ++
  (if weather.thunder > 0 then
    [{ soundId := "thunder_medium_close", volume := min 0.65 (weather.thunder * 0.8),
       loop := true, category := .weather, fadeInDuration := some 2 }]
   else [])

/-- `getDesertSounds` (`src/lib/soundMapping.ts`). -/
def getDesertSounds (timeOfDay : TimeOfDay) (weather : WeatherIntensity)
    (windSpeedKph : ℚ) (includeBirds _includeCrickets : Bool) : List SoundLayer :=
  let windVolume := calculateWindVolume windSpeedKph
  [{ soundId := "wind_field_strong", volume := max 0.35 (windVolume * 0.8),
     loop := true, category := .base, fadeInDuration := some 3 }] ++
  (if timeOfDay = .day ∧ includeBirds then
    [{ soundId := "birds_far", volume := 0.1, loop := true, category := .base,
       fadeInDuration := some 5 }]
   else []) ++
  (if weather.hasPrecipitation then
    [{ soundId := "rain_light", volume := min 0.5 (weather.rain * 0.65),
       loop := true, category := .weather, fadeInDuration := some 6 }]
   else []) ++
  (if weather.thunder > 0 then
    [{ soundId := "thunder_medium_close", volume := min 0.7 (weather.thunder * 0.85),
       loop := true, category := .weather, fadeInDuration := some 2 }]
   else [])

/-- `getSoundLayers` (`src/lib/soundMapping.ts`): biome dispatch.  The three
`Math.random()` probability draws (`shouldIncludeBirds` / `Crickets` /
`Frogs`) are modelled as the parameters `includeBirds includeCrickets
includeFrogs`; the humidity argument is accepted and, as in the source,
unused. -/
def getSoundLayers (biome : BiomeType) (timeOfDay : TimeOfDay)
    (weatherCode : ℤ) (windSpeedKph : ℚ) (_humidity : ℚ)
    (includeBirds includeCrickets includeFrogs : Bool) : List SoundLayer :=
  let weatherIntensity := mapWeatherToIntensity weatherCode
  match biome with
  | .city => getCitySounds timeOfDay weatherIntensity windSpeedKph includeBirds includeCrickets
  | .forest => getForestSounds timeOfDay weatherIntensity windSpeedKph includeBirds includeCrickets
  | .field => getFieldSounds timeOfDay weatherIntensity windSpeedKph includeBirds includeCrickets
  | .beach => getBeachSounds timeOfDay weatherIntensity windSpeedKph includeBirds includeCrickets
  | .lake => getLakeSounds timeOfDay weatherIntensity windSpeedKph includeBirds includeCrickets includeFrogs
  | .ocean => getOceanSounds timeOfDay weatherIntensity windSpeedKph includeBirds includeCrickets
  | .desert => getDesertSounds timeOfDay weatherIntensity windSpeedKph includeBirds includeCrickets

/-- The value pushed at step `i` of
`generateExponentialCurve(startVolume, endVolume, steps)`
(`src/lib/audioUtils.ts` lines 257-275): with `t = i / steps`,
`safeStart = max ε startVolume`, `safeEnd = max ε endVolume` (`ε = 0.001`),
the pushed value is `clamp₀¹ (safeStart * (safeEnd / safeStart) ^ t)`.
`Math.pow` with a real exponent is modelled by `Real.rpow`, hence `ℝ`. -/
noncomputable def expCurveValue (startVolume endVolume : ℝ) (steps i : ℕ) : ℝ :=
  let epsilon : ℝ := 0.001
  let t : ℝ := (i : ℝ) / (steps : ℝ)
  let safeStart := max epsilon startVolume
  let safeEnd := max epsilon endVolume
  max 0 (min 1 (safeStart * (safeEnd / safeStart) ^ t))

/-- `generateExponentialCurve` (`src/lib/audioUtils.ts`): the loop runs
`i = 0 .. steps` inclusive, so the curve has `steps + 1` entries. -/
noncomputable def generateExponentialCurve (startVolume endVolume : ℝ)
    (steps : ℕ) : List ℝ :=
  (List.range (steps + 1)).map (expCurveValue startVolume endVolume steps)

/-- `AudioTrack` from `src/types/audio.ts`, as stored in
`AudioManager.activeTracks`.  The Web Audio node handles (`source`,
`gainNode`) and the absolute context timestamp are platform objects with no
observable algebraic content; `startTime` is kept as the scheduled start
offset relative to the context clock. -/
structure AudioTrack where
  soundId : String
  volume : ℚ
  isLooping : Bool
  category : SoundCategory
  startTime : ℚ
  duration : ℚ
  isFadingOut : Bool
  deriving DecidableEq, Repr

/-- Events observable on the engine boundary: gain-automation and source
commands issued to the Web Audio graph, plus load-lifecycle markers.  Each
step function below returns the events it emits, in issue order. -/
inductive AudioEvent where
  /-- `console.error('AudioManager not initialized')` path: call rejected. -/
  | notInitialized
  /-- `play` found no cached buffer and deferred itself behind a load. -/
  | loadDeferred (soundId : String)
  /-- `loadAudioBuffer` found the decoded buffer in the cache. -/
  | cacheHit (soundId : String)
  /-- `loadAudioBuffer` started a fetch/decode chain over the path variants. -/
  | fetchStarted (soundId : String)
  /-- a fetch/decode chain succeeded and the buffer was cached. -/
  | loaded (soundId : String)
  /-- a fetch/decode chain exhausted all path variants and failed. -/
  | loadFailed (soundId : String)
  /-- `stop` was entered for a playing track with the given fade-out. -/
  | stopCmd (soundId : String) (fadeOutDuration : ℚ)
  /-- `source.start(startTime)` issued; the gain starts at `startVolume`. -/
  | sourceStarted (soundId : String) (startVolume startTime : ℚ)
  /-- `fadeVolume(gain, from, to, duration)` automation scheduled. -/
  | fadeScheduled (soundId : String) (fromVolume toVolume duration : ℚ)
  /-- `scheduleLoop` armed the loop-crossfade timer with this fade window. -/
  | loopArmed (soundId : String) (fadeDuration : ℚ)
  deriving DecidableEq, Repr

/-- State of one `AudioManager` instance (`src/lib/audioManager.ts`).

* `activeTracks`, `audioBuffers` model the two `Map`s (association lists in
  insertion order; a cached buffer is represented by its duration, the only
  field the logic reads);
* `loopTimeouts` is the set of identifiers with an armed loop-crossfade
  timer (the numeric timer ids carry no information);
* `inFlightLoads` holds one entry per running `loadAudioBuffer` fetch chain,
  together with the deferred `play` callback (`some opts`) registered on it
  by `play`'s `.then`, or `none` for a preload-initiated chain;
* `pendingStopRemovals` holds the `setTimeout` callbacks scheduled by
  `stop(id, fade > 0)` that will hard-stop the source and delete the map
  entry when they fire. -/
structure ManagerState where
  activeTracks : List (String × AudioTrack)
  audioBuffers : List (String × ℚ)
  loopTimeouts : List String
  inFlightLoads : List (String × Option PlayOptions)
  pendingStopRemovals : List (String × ℚ)
  failedLoads : List String
  initialized : Bool
  deriving DecidableEq, Repr

/-- The state of a freshly constructed `AudioManager`. -/
def ManagerState.empty : ManagerState :=
  { activeTracks := [], audioBuffers := [], loopTimeouts := [],
    inFlightLoads := [], pendingStopRemovals := [], failedLoads := [],
    initialized := false }

/-- `AudioManager.init` (graph construction aside): marks the manager
initialized; re-initialization is a warned no-op. -/
def ManagerState.init (s : ManagerState) : ManagerState :=
  if s.initialized then s else { s with initialized := true }

/-- `Map.get` on `activeTracks`. -/
def lookupTrack (s : ManagerState) (soundId : String) : Option AudioTrack :=
  (s.activeTracks.find? (fun p => p.1 = soundId)).map (·.2)

/-- `Map.get` on `audioBuffers` (the buffer is represented by its duration). -/
def findBuffer (s : ManagerState) (soundId : String) : Option ℚ :=
  (s.audioBuffers.find? (fun p => p.1 = soundId)).map (·.2)

/-- `Map.set`: replace in place if the key is present, else append. -/
def assocSet (m : List (String × AudioTrack)) (soundId : String)
    (t : AudioTrack) : List (String × AudioTrack) :=
  if m.any (fun p => p.1 = soundId) then
    m.map (fun p => if p.1 = soundId then (soundId, t) else p)
  else m ++ [(soundId, t)]

/-- `Map.set` on the buffer cache. -/
def bufferSet (m : List (String × ℚ)) (soundId : String) (dur : ℚ) :
    List (String × ℚ) :=
  if m.any (fun p => p.1 = soundId) then
    m.map (fun p => if p.1 = soundId then (soundId, dur) else p)
  else m ++ [(soundId, dur)]

/-- `Map.delete` on `activeTracks`. -/
def assocDelete (m : List (String × AudioTrack)) (soundId : String) :
    List (String × AudioTrack) :=
  m.filter (fun p => ¬ p.1 = soundId)

/-- `AudioManager.getActiveSounds`: the keys of `activeTracks`. -/
def getActiveSounds (s : ManagerState) : List String :=
  s.activeTracks.map (·.1)

/-- `AudioManager.isPlaying`. -/
def isPlaying (s : ManagerState) (soundId : String) : Bool :=
  s.activeTracks.any (fun p => p.1 = soundId)

/-- The synchronous prefix of `AudioManager.loadAudioBuffer`
(`src/lib/audioManager.ts` lines 162-195): if the buffer is cached it is
returned at once; otherwise a fetch/decode chain over
`getAudioPathVariants` starts.  `cb` is the continuation the caller hangs
on the returned promise (`some opts` for `play`'s deferred replay, `none`
for `preloadSounds`).  The cache test is the ONLY guard: neither
`failedLoads` nor already-running chains are consulted. -/
def loadAudioBufferStart (s : ManagerState) (soundId : String)
    (cb : Option PlayOptions) : ManagerState × List AudioEvent :=
  if (findBuffer s soundId).isSome then
    (s, [.cacheHit soundId])
  else
    ({ s with inFlightLoads := s.inFlightLoads ++ [(soundId, cb)] },
     [.fetchStarted soundId])

/-- `AudioManager.scheduleLoop` (arming part): clears any existing loop
timeout for the identifier and arms a fresh one whose crossfade window is
`calculateFadeDuration` of the track duration.  (The timer's firing
callback is the loop crossfade itself and is not needed by any claim
below.) -/
def scheduleLoop (s : ManagerState) (soundId : String) (track : AudioTrack) :
    ManagerState × List AudioEvent :=
  let fadeDuration := calculateFadeDuration track.duration
  ({ s with loopTimeouts :=
      (s.loopTimeouts.filter (fun i => ¬ i = soundId)) ++ [soundId] },
   [.loopArmed soundId fadeDuration])

/-- `AudioManager.stop` (`src/lib/audioManager.ts` lines 377-402).  No-op if
the identifier has no active track.  Otherwise: clears any armed loop
timeout; with `fadeOutDuration > 0` marks the track fading-out, schedules
the gain ramp to 0 and registers the delayed hard-stop/removal callback;
otherwise stops the source and deletes the track immediately. -/
def stop (s : ManagerState) (soundId : String) (fadeOutDuration : ℚ) :
    ManagerState × List AudioEvent :=
  match lookupTrack s soundId with
  | none => (s, [])
  | some track =>
    let s := { s with loopTimeouts := s.loopTimeouts.filter (fun i => ¬ i = soundId) }
    if fadeOutDuration > 0 then
      ({ s with
          activeTracks := assocSet s.activeTracks soundId { track with isFadingOut := true },
          pendingStopRemovals := s.pendingStopRemovals ++ [(soundId, fadeOutDuration)] },
       [.stopCmd soundId fadeOutDuration,
        .fadeScheduled soundId track.volume 0 fadeOutDuration])
    else
      ({ s with activeTracks := assocDelete s.activeTracks soundId },
       [.stopCmd soundId fadeOutDuration])

/-- The `setTimeout` callback registered by `stop(id, fade > 0)` firing:
`track.source.stop(); this.activeTracks.delete(soundId)`.  It deletes
whatever entry currently sits under the identifier. -/
def fireStopRemoval (s : ManagerState) (soundId : String) : ManagerState :=
  { s with
    activeTracks := assocDelete s.activeTracks soundId,
    pendingStopRemovals :=
      s.pendingStopRemovals.eraseP (fun p => p.1 = soundId) }

/-- `AudioManager.play` (`src/lib/audioManager.ts` lines 214-295).
If not initialized: rejected.  If the buffer is not cached: a load chain
starts with the replay callback `.then(buffer => { if (buffer)
this.play(soundId, options); })` attached, and `play` returns.  Otherwise:
a settled (non-fading-out) existing track for the identifier is first
stopped with fade-out `options.fadeInDuration || 0`; the new source starts
at gain `0` when a fade-in is requested (JS-truthy `fadeInDuration`), else
at the target volume, scheduled at `max(0.02, options.startDelay || 0)`;
a positive fade-in schedules the ramp; the new track is stored and, when
looping, the loop timer is armed. -/
def play (s : ManagerState) (soundId : String) (options : PlayOptions) :
    ManagerState × List AudioEvent :=
  if ¬ s.initialized then (s, [.notInitialized])
  else if (findBuffer s soundId).isNone then
    ((loadAudioBufferStart s soundId (some options)).1,
     .loadDeferred soundId :: (loadAudioBufferStart s soundId (some options)).2)
  else
    let dur := (findBuffer s soundId).getD 0
    -- Stop existing track with this ID (if any), unless it's already fading out
    let stopRes :=
      match lookupTrack s soundId with
      | some existingTrack =>
        if ¬ existingTrack.isFadingOut then
          stop s soundId (jsOr options.fadeInDuration 0)
        else (s, [])
      | none => (s, [])
    let startVolume := if jsTruthy options.fadeInDuration then 0 else options.volume
    let startTime := max 0.02 (jsOr options.startDelay 0)
    let evs2 := [AudioEvent.sourceStarted soundId startVolume startTime]
    let evs3 :=
      if jsTruthy options.fadeInDuration ∧ (options.fadeInDuration.getD 0) > 0 then
        [AudioEvent.fadeScheduled soundId 0 options.volume
          (options.fadeInDuration.getD 0)]
      else []
    let track : AudioTrack :=
      { soundId := soundId, volume := options.volume, isLooping := options.loop,
        category := options.category.getD .base, startTime := startTime,
        duration := dur, isFadingOut := false }
    let s2 := { stopRes.1 with
      activeTracks := assocSet stopRes.1.activeTracks soundId track }
    let loopRes :=
      if options.loop then scheduleLoop s2 soundId track else (s2, [])
    (loopRes.1, stopRes.2 ++ evs2 ++ evs3 ++ loopRes.2)

/-- Remove the first in-flight load chain for `soundId`, returning its
callback and the remaining chains. -/
def extractLoad : List (String × Option PlayOptions) → String →
    Option (Option PlayOptions × List (String × Option PlayOptions))
  | [], _ => none
  | p :: rest, soundId =>
    if p.1 = soundId then some (p.2, rest)
    else (extractLoad rest soundId).map (fun q => (q.1, p :: q.2))

/-- Completion of one in-flight `loadAudioBuffer` chain.  On success the
buffer is cached (`audioBuffers.set`) and the chain's deferred `play`
callback — if one was registered — re-invokes `play`, which now finds the
buffer; the callback performs NO other check.  On failure the identifier is
pushed onto `failedLoads` and the callback receives `null`, so its
`if (buffer)` guard drops the deferred play. -/
def loadResolve (s : ManagerState) (soundId : String) (ok : Bool) (dur : ℚ) :
    ManagerState × List AudioEvent :=
  match extractLoad s.inFlightLoads soundId with
  | none => (s, [])
  | some (cb, rest) =>
    let s1 := { s with inFlightLoads := rest }
    if ok then
      let s2 := { s1 with audioBuffers := bufferSet s1.audioBuffers soundId dur }
      match cb with
      | some options =>
        ((play s2 soundId options).1,
         .loaded soundId :: (play s2 soundId options).2)
      | none => (s2, [.loaded soundId])
    else
      ({ s1 with failedLoads := s1.failedLoads ++ [soundId] },
       [.loadFailed soundId])

/-- `AudioSystemState.failedLoads` as reported by `AudioManager.getState`. -/
def getStateFailedLoads (s : ManagerState) : List String :=
  s.failedLoads

/-- `SoundscapeTransitionConfig` (`src/lib/audioController.ts`). -/
structure SoundscapeTransitionConfig where
  fadeOutDuration : ℚ
  fadeInDuration : ℚ
  clearAll : Bool
  deriving DecidableEq, Repr

/-- `DEFAULT_TRANSITION` (`src/lib/audioController.ts`). -/
def DEFAULT_TRANSITION : SoundscapeTransitionConfig :=
  { fadeOutDuration := 5, fadeInDuration := 5, clearAll := false }

/-- One engine command issued by `AudioController.transitionSoundscape`. -/
inductive AudioCommand where
  | stopAll (fadeOutDuration : ℚ)
  | stopId (soundId : String) (fadeOutDuration : ℚ)
  | playId (soundId : String) (options : PlayOptions)
  | setVolume (soundId : String) (volume fadeDuration : ℚ)
  deriving DecidableEq, Repr

/-- JS `Map` built from a layer list keyed by `soundId`: later entries
overwrite earlier ones, so lookup returns the LAST matching layer. -/
def layerMapGet (layers : List SoundLayer) (soundId : String) :
    Option SoundLayer :=
  layers.reverse.find? (fun l => l.soundId = soundId)

/-- `Map.has` on such a map. -/
def layerMapHas (layers : List SoundLayer) (soundId : String) : Bool :=
  layers.any (fun l => l.soundId = soundId)

/-- `toRemove` of `AudioController.transitionSoundscape`: current layers
whose id is absent from the new map. -/
def toRemoveLayers (currentSoundscape newLayers : List SoundLayer) :
    List SoundLayer :=
  currentSoundscape.filter (fun layer => !layerMapHas newLayers layer.soundId)

/-- `toAdd` of `AudioController.transitionSoundscape`: new layers whose id
is absent from the current map. -/
def toAddLayers (currentSoundscape newLayers : List SoundLayer) :
    List SoundLayer :=
  newLayers.filter (fun layer => !layerMapHas currentSoundscape layer.soundId)

/-- `toKeep` of `AudioController.transitionSoundscape`: new layers whose id
is present in the current map. -/
def toKeepLayers (currentSoundscape newLayers : List SoundLayer) :
    List SoundLayer :=
  newLayers.filter (fun layer => layerMapHas currentSoundscape layer.soundId)

/-- The play options issued for one `toAdd` layer: `fadeInDuration:
layer.fadeInDuration || config.fadeInDuration` (JS `||`). -/
def addPlayOptions (config : SoundscapeTransitionConfig) (layer : SoundLayer) :
    PlayOptions :=
  { volume := layer.volume, loop := layer.loop,
    fadeInDuration := some (jsOr layer.fadeInDuration config.fadeInDuration),
    startDelay := layer.startDelay, category := some layer.category }

/-- The `play` call issued for one `toAdd` layer. -/
def addPlayCommand (config : SoundscapeTransitionConfig) (layer : SoundLayer) :
    AudioCommand :=
  AudioCommand.playId layer.soundId (addPlayOptions config layer)

/-- The `setVolume` call issued (or skipped) for one `toKeep` layer:
`currentMap.get(layer.soundId)!` followed by the 0.05-threshold test. -/
def keepVolumeCommand (currentSoundscape : List SoundLayer)
    (config : SoundscapeTransitionConfig) (layer : SoundLayer) :
    Option AudioCommand :=
  match layerMapGet currentSoundscape layer.soundId with
  | some currentLayer =>
    if |currentLayer.volume - layer.volume| > 0.05 then
      some (AudioCommand.setVolume layer.soundId layer.volume
        config.fadeInDuration)
    else none
  | none => none

/-- `AudioController.transitionSoundscape` (`src/lib/audioController.ts`
lines 482-546), as the list of `AudioManager` commands it issues, in issue
order.  With `clearAll` it stops everything, then (after a `setTimeout` of
`fadeOutDuration`) plays every new layer with `config.fadeInDuration`.
Otherwise it stops every `toRemove` layer, then plays every `toAdd` layer,
then volume-adjusts the `toKeep` layers. -/
def transitionSoundscape (currentSoundscape newLayers : List SoundLayer)
    (config : SoundscapeTransitionConfig) : List AudioCommand :=
  if config.clearAll then
    AudioCommand.stopAll config.fadeOutDuration ::
    newLayers.map (fun layer =>
      AudioCommand.playId layer.soundId
        { volume := layer.volume, loop := layer.loop,
          fadeInDuration := some config.fadeInDuration,
          startDelay := layer.startDelay, category := some layer.category })
  else
    ((toRemoveLayers currentSoundscape newLayers).map (fun layer =>
      AudioCommand.stopId layer.soundId config.fadeOutDuration)) ++
    ((toAddLayers currentSoundscape newLayers).map (addPlayCommand config)) ++
    ((toKeepLayers currentSoundscape newLayers).filterMap
      (keepVolumeCommand currentSoundscape config))

/-! ## Wind-volume curve (claim C8) -/

/-- The wind-volume curve never exceeds 1. -/
lemma calculateWindVolume_le_one (w : ℚ) : calculateWindVolume w ≤ 1 := by
  unfold calculateWindVolume
  split_ifs with h1 h2 h3
  · norm_num
  · push_neg at h1; linarith
  · push_neg at h1 h2; linarith
  · exact le_trans (min_le_left _ _) (by norm_num)

/-- The wind-volume curve never drops below 0.2. -/
lemma le_calculateWindVolume (w : ℚ) : (0.2 : ℚ) ≤ calculateWindVolume w := by
  unfold calculateWindVolume
  split_ifs with h1 h2 h3
  · norm_num
  · push_neg at h1; nlinarith
  · push_neg at h1 h2; nlinarith
  · push_neg at h1 h2 h3
    refine le_min (by norm_num) ?_
    nlinarith

/-- The wind-volume curve is monotone in wind speed. -/
lemma calculateWindVolume_mono {w1 w2 : ℚ} (h : w1 ≤ w2) :
    calculateWindVolume w1 ≤ calculateWindVolume w2 := by
  unfold calculateWindVolume
  split_ifs with a1 a2 a3 b1 b2 b3 c1 c2 c3 d1 d2 d3 <;>
    first
      | linarith
      | nlinarith
      | (exact min_le_min le_rfl (by nlinarith))
      | (refine le_min (by nlinarith) (by nlinarith))

/-- C8: for all wind speeds `w1 ≤ w2`, `calculateWindVolume w1 ≤
calculateWindVolume w2`; the result always lies in `[0.2, 1]`; and the
curve follows the four-segment piecewise-linear form — flat `0.2` below
10 kph, `0.2 → 0.5` over 10–25 kph, `0.5 → 0.8` over 25–40 kph, and
`0.8 → 1.0` (capped at 1) above 40 kph. -/
theorem claim_C8_windVolume (w1 w2 : ℚ) (h : w1 ≤ w2) :
    calculateWindVolume w1 ≤ calculateWindVolume w2 ∧
    ((0.2 : ℚ) ≤ calculateWindVolume w1 ∧ calculateWindVolume w1 ≤ 1) ∧
    (w1 < 10 → calculateWindVolume w1 = 0.2) ∧
    (10 ≤ w1 → w1 < 25 → calculateWindVolume w1 = 0.2 + ((w1 - 10) / 15) * 0.3) ∧
    (25 ≤ w1 → w1 < 40 → calculateWindVolume w1 = 0.5 + ((w1 - 25) / 15) * 0.3) ∧
    (40 ≤ w1 → calculateWindVolume w1 = min 1.0 (0.8 + ((w1 - 40) / 20) * 0.2)) := by
  refine ⟨calculateWindVolume_mono h, ⟨le_calculateWindVolume w1, calculateWindVolume_le_one w1⟩,
    ?_, ?_, ?_, ?_⟩ <;>
  · intros
    unfold calculateWindVolume
    split_ifs <;> first | rfl | (exfalso; linarith)

/-- C8 witness: the theorem applied at wind speeds 5 and 30 kph. -/
theorem claim_C8_windVolume_witness :
    (5 : ℚ) ≤ 30 ∧ calculateWindVolume 5 ≤ calculateWindVolume 30 :=
  ⟨by norm_num, (claim_C8_windVolume 5 30 (by norm_num)).1⟩

/-! ## Layer resolver scenario (claim C1) -/

/-- The sound identifiers of the `wind/` group of `SOUND_PATH_MAP`
(`src/lib/audioUtils.ts`): a layer is a wind layer iff its id is one of
these. -/
def windSoundIds : List String :=
  ["wind_autumn", "wind_coastal_birds", "wind_coastal_medium_far",
   "wind_field_strong", "wind_forest_medium", "wind_grass_strong"]

/-- The rain/precipitation sound identifiers: exactly the ids the resolver
emits under a `weather.hasPrecipitation` guard. -/
def precipitationSoundIds : List String :=
  ["rain_light", "rain_medium", "rain-wind-city-traffic_medium_far"]

/-- Weather code 65 maps to rain intensity 0.7 with precipitation and no
thunder. -/
lemma mapWeatherToIntensity_65 :
    mapWeatherToIntensity 65 =
      { rain := 0.7, thunder := 0, snow := false, fog := false,
        hasPrecipitation := true } := by
  norm_num [mapWeatherToIntensity]

/-- Full evaluation of the resolver at (forest, night, code 65, 30 kph):
wind layer at 0.42, rain layer at 0.56, plus the cricket accent iff the
cricket draw succeeded. -/
lemma getSoundLayers_forest_night_65_30 (b c f : Bool) :
    getSoundLayers .forest .night 65 30 70 b c f =
      [{ soundId := "wind_forest_medium", volume := 0.42, loop := true,
         category := .base, fadeInDuration := some 4, startDelay := none },
       { soundId := "rain_medium", volume := 0.56, loop := true,
         category := .weather, fadeInDuration := some 6, startDelay := none }] ++
      (if c then
        [{ soundId := "crickets_far", volume := 0.35, loop := true,
           category := .accent, fadeInDuration := some 8, startDelay := none }]
       else []) := by
  have h2 : calculateWindVolume 30 = 0.6 := by norm_num [calculateWindVolume]
  cases c <;>
    simp [getSoundLayers, getForestSounds, mapWeatherToIntensity_65, h2,
      max_def, min_def] <;>
    norm_num

/-- C1 counterexample: at (forest, night, weather code 65, wind 30 kph,
humidity 70) the returned layer list contains NO wind layer of volume
≥ 0.5: the only wind layer is `wind_forest_medium` with volume
`max 0.3 (0.7 * calculateWindVolume 30) = 0.42`.  Hence the claim, which
demands a wind layer of volume ≥ 0.5 regardless of the draws, is false. -/
theorem claim_C1_counterexample :
    ¬ (∀ includeBirds includeCrickets includeFrogs : Bool,
        (∃ l ∈ getSoundLayers .forest .night 65 30 70
            includeBirds includeCrickets includeFrogs,
          l.soundId ∈ precipitationSoundIds ∧ 0 < l.volume) ∧
        (∃ l ∈ getSoundLayers .forest .night 65 30 70
            includeBirds includeCrickets includeFrogs,
          l.soundId ∈ windSoundIds ∧ (0.5 : ℚ) ≤ l.volume)) := by
  intro h
  obtain ⟨l, hl, hid, hvol⟩ := (h false false false).2
  rw [getSoundLayers_forest_night_65_30 false false false] at hl
  simp at hl
  rcases hl with hl | hl
  · rw [hl] at hvol
    norm_num at hvol
  · rw [hl] at hid
    simp [windSoundIds] at hid

/-- C1 (amended): at (forest, night, weather code 65, wind 30 kph,
humidity 70), regardless of the accent draws, the returned layer list
includes a precipitation layer with volume strictly greater than 0 (namely
`rain_medium` at 0.56) and a wind layer with volume exactly 0.42 — not
≥ 0.5; the raw wind-volume input `calculateWindVolume 30 = 0.6` does reach
0.5, but the forest rule rescales it by 0.7 with floor 0.3. -/
theorem claim_C1_amended :
    ∀ includeBirds includeCrickets includeFrogs : Bool,
      (∃ l ∈ getSoundLayers .forest .night 65 30 70
          includeBirds includeCrickets includeFrogs,
        l.soundId ∈ precipitationSoundIds ∧ 0 < l.volume) ∧
      (∃ l ∈ getSoundLayers .forest .night 65 30 70
          includeBirds includeCrickets includeFrogs,
        l.soundId ∈ windSoundIds ∧ l.volume = 0.42) ∧
      calculateWindVolume 30 = 0.6 := by
  intro b c f
  rw [getSoundLayers_forest_night_65_30 b c f]
  cases c <;> simp [precipitationSoundIds, windSoundIds] <;>
    norm_num [calculateWindVolume]

/-! ## Resolver invariants (claim C9) -/

set_option maxHeartbeats 4000000 in
/-- C9: for every biome, time of day, weather code, wind speed, humidity
and accent-draw outcome, `getSoundLayers` returns a non-empty list, every
returned layer has `loop = true`, and at least one returned layer has
category `base`. -/
theorem claim_C9_resolverInvariants (biome : BiomeType) (timeOfDay : TimeOfDay)
    (weatherCode : ℤ) (windSpeedKph humidity : ℚ)
    (includeBirds includeCrickets includeFrogs : Bool) :
    getSoundLayers biome timeOfDay weatherCode windSpeedKph humidity
        includeBirds includeCrickets includeFrogs ≠ [] ∧
    (∀ l ∈ getSoundLayers biome timeOfDay weatherCode windSpeedKph humidity
        includeBirds includeCrickets includeFrogs, l.loop = true) ∧
    (∃ l ∈ getSoundLayers biome timeOfDay weatherCode windSpeedKph humidity
        includeBirds includeCrickets includeFrogs,
      l.category = SoundCategory.base) := by
  rcases biome <;>
    (simp only [getSoundLayers, getCitySounds, getForestSounds, getFieldSounds,
       getBeachSounds, getLakeSounds, getOceanSounds, getDesertSounds]
     split_ifs <;> simp)

/-! ## Soundscape diff/transition (claim C2) -/

/-- Classifier for stop commands. -/
def isStopCommand : AudioCommand → Bool
  | .stopId _ _ => true
  | _ => false

/-- Classifier for play commands. -/
def isPlayCommand : AudioCommand → Bool
  | .playId _ _ => true
  | _ => false

/-- Classifier for volume-adjust commands. -/
def isVolumeCommand : AudioCommand → Bool
  | .setVolume _ _ _ => true
  | _ => false

/-- `Map.has` on a layer map agrees with membership in the identifier
list. -/
lemma layerMapHas_iff (ls : List SoundLayer) (soundId : String) :
    layerMapHas ls soundId = true ↔ soundId ∈ ls.map SoundLayer.soundId := by
  simp [layerMapHas, List.any_eq_true, List.mem_map]

/-- Whatever `keepVolumeCommand` emits is the `setVolume` call for that
layer's id and target volume. -/
lemma keepVolumeCommand_shape {cur : List SoundLayer}
    {config : SoundscapeTransitionConfig} {layer : SoundLayer}
    {cmd : AudioCommand} (h : keepVolumeCommand cur config layer = some cmd) :
    cmd = AudioCommand.setVolume layer.soundId layer.volume
      config.fadeInDuration := by
  unfold keepVolumeCommand at h
  rcases hq : layerMapGet cur layer.soundId with _ | currentLayer
  · simp only [hq] at h
    exact Option.noConfusion h
  · simp only [hq] at h
    split_ifs at h
    exact (Option.some_inj.mp h).symm

set_option maxHeartbeats 1000000 in
/-- C2: with `clearAll = false`, the transition's stop commands are exactly
the identifiers in `current` but not in `desired` (all with the configured
fade-out); play commands target exactly the identifiers in `desired` but
not in `current`; volume adjustments target only identifiers present in
both; no blanket stop-all is issued; and the command list is ordered as
all stops, then all plays, then all volume adjustments. -/
theorem claim_C2_transitionDiff (current desired : List SoundLayer)
    (config : SoundscapeTransitionConfig) (hclear : config.clearAll = false) :
    (∀ soundId fade,
       AudioCommand.stopId soundId fade ∈
           transitionSoundscape current desired config ↔
         (fade = config.fadeOutDuration ∧
          soundId ∈ current.map SoundLayer.soundId ∧
          soundId ∉ desired.map SoundLayer.soundId)) ∧
    (∀ soundId options,
       AudioCommand.playId soundId options ∈
           transitionSoundscape current desired config →
         soundId ∈ desired.map SoundLayer.soundId ∧
         soundId ∉ current.map SoundLayer.soundId) ∧
    (∀ soundId, soundId ∈ desired.map SoundLayer.soundId →
       soundId ∉ current.map SoundLayer.soundId →
       ∃ options, AudioCommand.playId soundId options ∈
         transitionSoundscape current desired config) ∧
    (∀ soundId vol fade,
       AudioCommand.setVolume soundId vol fade ∈
           transitionSoundscape current desired config →
         soundId ∈ desired.map SoundLayer.soundId ∧
         soundId ∈ current.map SoundLayer.soundId) ∧
    (∀ fade, AudioCommand.stopAll fade ∉
       transitionSoundscape current desired config) ∧
    transitionSoundscape current desired config =
      (transitionSoundscape current desired config).filter
          (fun cmd => isStopCommand cmd) ++
        (transitionSoundscape current desired config).filter
          (fun cmd => isPlayCommand cmd) ++
        (transitionSoundscape current desired config).filter
          (fun cmd => isVolumeCommand cmd) := by
  have hT : transitionSoundscape current desired config =
      ((toRemoveLayers current desired).map (fun layer =>
        AudioCommand.stopId layer.soundId config.fadeOutDuration)) ++
      ((toAddLayers current desired).map (addPlayCommand config)) ++
      ((toKeepLayers current desired).filterMap
        (keepVolumeCommand current config)) := by
    simp [transitionSoundscape, hclear]
  rw [hT]
  refine ⟨?_, ?_, ?_, ?_, ?_, ?_⟩
  · -- stop commands characterize toRemove
    intro soundId fade
    constructor
    · intro hmem
      rcases List.mem_append.mp hmem with hmem | hmem
      · rcases List.mem_append.mp hmem with hmem | hmem
        · obtain ⟨layer, hmem, heq⟩ := List.mem_map.mp hmem
          injection heq with h1 h2
          unfold toRemoveLayers at hmem
          obtain ⟨hcur, hpred⟩ := List.mem_filter.mp hmem
          refine ⟨h2.symm, List.mem_map.mpr ⟨layer, hcur, h1⟩, ?_⟩
          intro hmem2
          rw [← h1, ← layerMapHas_iff] at hmem2
          simp [hmem2] at hpred
        · obtain ⟨layer, -, heq⟩ := List.mem_map.mp hmem
          exact absurd heq (by simp [addPlayCommand])
      · obtain ⟨layer, -, heq⟩ := List.mem_filterMap.mp hmem
        exact absurd (keepVolumeCommand_shape heq) (by simp)
    · rintro ⟨rfl, hin, hout⟩
      obtain ⟨layer, hcur, hid⟩ := List.mem_map.mp hin
      have hfalse : layerMapHas desired layer.soundId = false := by
        cases hcase : layerMapHas desired layer.soundId
        · rfl
        · exact absurd ((layerMapHas_iff desired layer.soundId).mp hcase)
            (by rw [hid]; exact fun hm => hout hm)
      refine List.mem_append.mpr (Or.inl (List.mem_append.mpr (Or.inl
        (List.mem_map.mpr ⟨layer, ?_, by rw [hid]⟩))))
      unfold toRemoveLayers
      exact List.mem_filter.mpr ⟨hcur, by simp [hfalse]⟩
  · -- play commands come only from toAdd
    intro soundId options hmem
    rcases List.mem_append.mp hmem with hmem | hmem
    · rcases List.mem_append.mp hmem with hmem | hmem
      · obtain ⟨layer, -, heq⟩ := List.mem_map.mp hmem
        exact absurd heq (by simp)
      · obtain ⟨layer, hmem, heq⟩ := List.mem_map.mp hmem
        unfold toAddLayers at hmem
        obtain ⟨hdes, hpred⟩ := List.mem_filter.mp hmem
        have hid : layer.soundId = soundId := by
          unfold addPlayCommand at heq
          injection heq
        refine ⟨List.mem_map.mpr ⟨layer, hdes, hid⟩, ?_⟩
        intro hmem2
        rw [← hid, ← layerMapHas_iff] at hmem2
        simp [hmem2] at hpred
    · obtain ⟨layer, -, heq⟩ := List.mem_filterMap.mp hmem
      exact absurd (keepVolumeCommand_shape heq) (by simp)
  · -- every desired-only identifier gets a play command
    intro soundId hin hout
    obtain ⟨layer, hdes, hid⟩ := List.mem_map.mp hin
    subst hid
    have hfalse : layerMapHas current layer.soundId = false := by
      cases hcase : layerMapHas current layer.soundId
      · rfl
      · exact absurd ((layerMapHas_iff current layer.soundId).mp hcase) hout
    refine ⟨addPlayOptions config layer, ?_⟩
    refine List.mem_append.mpr (Or.inl (List.mem_append.mpr (Or.inr
      (List.mem_map.mpr ⟨layer, ?_, rfl⟩))))
    unfold toAddLayers
    exact List.mem_filter.mpr ⟨hdes, by simp [hfalse]⟩
  · -- volume adjustments come only from toKeep
    intro soundId vol fade hmem
    rcases List.mem_append.mp hmem with hmem | hmem
    · rcases List.mem_append.mp hmem with hmem | hmem
      · obtain ⟨layer, -, heq⟩ := List.mem_map.mp hmem
        exact absurd heq (by simp)
      · obtain ⟨layer, -, heq⟩ := List.mem_map.mp hmem
        exact absurd heq (by simp [addPlayCommand])
    · obtain ⟨layer, hmem, heq⟩ := List.mem_filterMap.mp hmem
      unfold toKeepLayers at hmem
      obtain ⟨hdes, hpred⟩ := List.mem_filter.mp hmem
      have hid : layer.soundId = soundId := by
        have hshape := keepVolumeCommand_shape heq
        injection hshape.symm
      refine ⟨List.mem_map.mpr ⟨layer, hdes, hid⟩, ?_⟩
      rw [← hid, ← layerMapHas_iff]
      exact hpred
  · -- no stopAll in the diff path
    intro fade hmem
    rcases List.mem_append.mp hmem with hmem | hmem
    · rcases List.mem_append.mp hmem with hmem | hmem
      · obtain ⟨layer, -, heq⟩ := List.mem_map.mp hmem
        exact absurd heq (by simp)
      · obtain ⟨layer, -, heq⟩ := List.mem_map.mp hmem
        exact absurd heq (by simp [addPlayCommand])
    · obtain ⟨layer, -, heq⟩ := List.mem_filterMap.mp hmem
      exact absurd (keepVolumeCommand_shape heq) (by simp)
  · -- ordering: stops, then plays, then volume adjustments
    have hS : ∀ cmd ∈ (toRemoveLayers current desired).map (fun layer =>
        AudioCommand.stopId layer.soundId config.fadeOutDuration),
        isStopCommand cmd = true ∧ isPlayCommand cmd = false ∧
          isVolumeCommand cmd = false := by
      intro cmd hm
      obtain ⟨layer, -, rfl⟩ := List.mem_map.mp hm
      exact ⟨rfl, rfl, rfl⟩
    have hP : ∀ cmd ∈ (toAddLayers current desired).map (addPlayCommand config),
        isStopCommand cmd = false ∧ isPlayCommand cmd = true ∧
          isVolumeCommand cmd = false := by
      intro cmd hm
      obtain ⟨layer, -, rfl⟩ := List.mem_map.mp hm
      exact ⟨rfl, rfl, rfl⟩
    have hK : ∀ cmd ∈ (toKeepLayers current desired).filterMap
        (keepVolumeCommand current config),
        isStopCommand cmd = false ∧ isPlayCommand cmd = false ∧
          isVolumeCommand cmd = true := by
      intro cmd hm
      obtain ⟨layer, -, heq⟩ := List.mem_filterMap.mp hm
      rw [keepVolumeCommand_shape heq]
      exact ⟨rfl, rfl, rfl⟩
    rw [List.filter_append, List.filter_append, List.filter_append,
      List.filter_append, List.filter_append, List.filter_append,
      List.filter_eq_self.mpr (fun c hc => (hS c hc).1),
      List.filter_eq_nil_iff.mpr (fun c hc => by simp [(hP c hc).1]),
      List.filter_eq_nil_iff.mpr (fun c hc => by simp [(hK c hc).1]),
      List.filter_eq_nil_iff.mpr (fun c hc => by simp [(hS c hc).2.1]),
      List.filter_eq_self.mpr (fun c hc => (hP c hc).2.1),
      List.filter_eq_nil_iff.mpr (fun c hc => by simp [(hK c hc).2.1]),
      List.filter_eq_nil_iff.mpr (fun c hc => by simp [(hS c hc).2.2]),
      List.filter_eq_nil_iff.mpr (fun c hc => by simp [(hP c hc).2.2]),
      List.filter_eq_self.mpr (fun c hc => (hK c hc).2.2)]
    simp

/-- The city traffic layer used in the C2 witness (identifier A). -/
def layerTrafficA : SoundLayer :=
  { soundId := "traffic_medium_close", volume := 0.5, loop := true,
    category := .base }

/-- The rain layer used in the C2 witness (identifier B). -/
def layerRainB : SoundLayer :=
  { soundId := "rain_light", volume := 0.3, loop := true,
    category := .weather }

/-- The waves layer used in the C2 witness (identifier C). -/
def layerWavesC : SoundLayer :=
  { soundId := "waves_medium_far", volume := 0.6, loop := true,
    category := .base }

/-- C2 witness: the theorem applied at current = {A, B}, desired = {B, C}
with the default transition config shows that A (current-only) is stopped
with the configured fade-out. -/
theorem claim_C2_transitionDiff_witness :
    DEFAULT_TRANSITION.clearAll = false ∧
    AudioCommand.stopId "traffic_medium_close" 5 ∈
      transitionSoundscape [layerTrafficA, layerRainB]
        [layerRainB, layerWavesC] DEFAULT_TRANSITION :=
  ⟨rfl,
    ((claim_C2_transitionDiff [layerTrafficA, layerRainB]
        [layerRainB, layerWavesC] DEFAULT_TRANSITION rfl).1
      "traffic_medium_close" 5).mpr
      ⟨rfl, by simp [layerTrafficA, layerRainB],
        by simp [layerRainB, layerWavesC]⟩⟩

/-! ## Exponential envelope curve (claim C7) -/

/-- The epsilon floor of the curve is positive below any `max` with it. -/
lemma safeVol_pos (v : ℝ) : (0 : ℝ) < max 0.001 v :=
  lt_of_lt_of_le (by norm_num) (le_max_left _ _)

/-- Unfolded form of `expCurveValue`. -/
lemma expCurveValue_eq (s e : ℝ) (n i : ℕ) :
    expCurveValue s e n i =
      max 0 (min 1 (max 0.001 s *
        (max 0.001 e / max 0.001 s) ^ ((i : ℝ) / (n : ℝ)))) := rfl

/-- The clamp to [0, 1] is monotone. -/
lemma clamp_mono {a b : ℝ} (h : a ≤ b) :
    max 0 (min 1 a) ≤ max 0 (min 1 b) :=
  max_le_max le_rfl (min_le_min le_rfl h)

/-- For `x ∈ [0, 1]`, clamping `max ε x` to [0, 1] gives `max ε x`, which is
within ε of `x`. -/
lemma clamp_near (x : ℝ) (h0 : 0 ≤ x) (h1 : x ≤ 1) :
    |max 0 (min 1 (max 0.001 x)) - x| ≤ 0.001 := by
  rw [min_eq_right (max_le (by norm_num) h1),
    max_eq_right (le_trans (by norm_num : (0:ℝ) ≤ 0.001) (le_max_left _ _))]
  rcases le_total x 0.001 with hc | hc
  · rw [max_eq_left hc, abs_of_nonneg (by linarith)]
    linarith
  · rw [max_eq_right hc, sub_self, abs_zero]
    norm_num

/-- The curve entry at index 0 is the clamped `safeStart`. -/
lemma expCurveValue_at_zero (s e : ℝ) (n : ℕ) :
    expCurveValue s e n 0 = max 0 (min 1 (max 0.001 s)) := by
  rw [expCurveValue_eq]
  norm_num

/-- The curve entry at index `n` (that is, `t = 1`) is the clamped
`safeEnd`. -/
lemma expCurveValue_at_last (s e : ℝ) {n : ℕ} (hn : n ≠ 0) :
    expCurveValue s e n n = max 0 (min 1 (max 0.001 e)) := by
  rw [expCurveValue_eq, div_self (Nat.cast_ne_zero.mpr hn), Real.rpow_one,
    mul_comm, div_mul_cancel₀ _ (ne_of_gt (safeVol_pos s))]

/-- Monotonicity of the curve entries when `safeStart ≤ safeEnd`. -/
lemma expCurveValue_mono_of_le {s e : ℝ} (hse : max 0.001 s ≤ max 0.001 e)
    {n i j : ℕ} (hn : n ≠ 0) (hij : i ≤ j) :
    expCurveValue s e n i ≤ expCurveValue s e n j := by
  rw [expCurveValue_eq, expCurveValue_eq]
  apply clamp_mono
  apply mul_le_mul_of_nonneg_left _ (le_of_lt (safeVol_pos s))
  apply Real.rpow_le_rpow_of_exponent_le
  · exact (one_le_div (safeVol_pos s)).mpr hse
  · exact div_le_div_of_nonneg_right (Nat.cast_le.mpr hij) (by positivity)

/-- Antitonicity of the curve entries when `safeEnd ≤ safeStart`. -/
lemma expCurveValue_anti_of_ge {s e : ℝ} (hse : max 0.001 e ≤ max 0.001 s)
    {n i j : ℕ} (hn : n ≠ 0) (hij : i ≤ j) :
    expCurveValue s e n j ≤ expCurveValue s e n i := by
  rw [expCurveValue_eq, expCurveValue_eq]
  apply clamp_mono
  apply mul_le_mul_of_nonneg_left _ (le_of_lt (safeVol_pos s))
  apply Real.rpow_le_rpow_of_exponent_ge
    (div_pos (safeVol_pos e) (safeVol_pos s))
    ((div_le_one (safeVol_pos s)).mpr hse)
  exact div_le_div_of_nonneg_right (Nat.cast_le.mpr hij) (by positivity)

/-- Reading the generated curve at index `i ≤ steps` gives
`expCurveValue`. -/
lemma generateExponentialCurve_getD (s e : ℝ) (n i : ℕ) (h : i ≤ n) :
    (generateExponentialCurve s e n).getD i 0 = expCurveValue s e n i := by
  unfold generateExponentialCurve
  have hlen : i < ((List.range (n + 1)).map (expCurveValue s e n)).length := by
    simpa using Nat.lt_succ_of_le h
  rw [List.getD_eq_getElem _ _ hlen]
  simp

/-- C7: for start and end volumes in [0, 1] and at least one step, the
generated envelope curve starts within ε = 0.001 of the start volume, ends
within ε of the end volume, and is monotonically non-decreasing when
`s < e` and non-increasing when `s > e`. -/
theorem claim_C7_envelopeCurve (s e : ℝ) (n : ℕ)
    (hs0 : 0 ≤ s) (hs1 : s ≤ 1) (he0 : 0 ≤ e) (he1 : e ≤ 1) (hn : 1 ≤ n) :
    |(generateExponentialCurve s e n).getD 0 0 - s| ≤ 0.001 ∧
    |(generateExponentialCurve s e n).getD n 0 - e| ≤ 0.001 ∧
    (∀ i j, i ≤ j → j ≤ n →
      (s < e → (generateExponentialCurve s e n).getD i 0 ≤
        (generateExponentialCurve s e n).getD j 0) ∧
      (e < s → (generateExponentialCurve s e n).getD j 0 ≤
        (generateExponentialCurve s e n).getD i 0)) := by
  have hn0 : n ≠ 0 := Nat.pos_iff_ne_zero.mp hn
  refine ⟨?_, ?_, ?_⟩
  · rw [generateExponentialCurve_getD s e n 0 (Nat.zero_le n),
      expCurveValue_at_zero]
    exact clamp_near s hs0 hs1
  · rw [generateExponentialCurve_getD s e n n le_rfl,
      expCurveValue_at_last s e hn0]
    exact clamp_near e he0 he1
  · intro i j hij hjn
    rw [generateExponentialCurve_getD s e n i (le_trans hij hjn),
      generateExponentialCurve_getD s e n j hjn]
    constructor
    · intro hlt
      exact expCurveValue_mono_of_le (max_le_max le_rfl (le_of_lt hlt)) hn0 hij
    · intro hlt
      exact expCurveValue_anti_of_ge (max_le_max le_rfl (le_of_lt hlt)) hn0 hij

/-- C7 witness: the theorem applied at start 0, end 1, one step; the curve
head is within ε of 0. -/
theorem claim_C7_envelopeCurve_witness :
    |(generateExponentialCurve 0 1 1).getD 0 0 - 0| ≤ 0.001 :=
  (claim_C7_envelopeCurve 0 1 1 le_rfl zero_le_one zero_le_one le_rfl
    le_rfl).1

/-! ## Playback engine: loading, stopping, replacing (claims C3-C6, C10) -/

/-- A minimal play request used in the concrete engine scenarios. -/
def simpleOptions : PlayOptions := { volume := 1, loop := false }

/-- An initialized manager with the "rain_light" buffer cached and a
settled (non-fading) looping track playing under that identifier, with its
loop timer armed. -/
def settledTrack : AudioTrack :=
  { soundId := "rain_light", volume := 1, isLooping := true,
    category := .weather, startTime := 1, duration := 60,
    isFadingOut := false }

/-- See `settledTrack`. -/
def playingState : ManagerState :=
  { ManagerState.empty with
    initialized := true,
    activeTracks := [("rain_light", settledTrack)],
    audioBuffers := [("rain_light", 60)],
    loopTimeouts := ["rain_light"] }

/-- C3: the race trace.  From a fresh initialized manager: `play` defers
behind a load; a `stop` for the same identifier arrives while the load is
pending and is a no-op (no track exists yet); the load then resolves and
the deferred play commits unconditionally — its callback checks only that
the buffer loaded, never whether the identifier is still wanted — so the
stopped identifier re-enters the active set. -/
theorem claim_C3_staleDeferredPlay :
    stop (play ManagerState.empty.init "rain_light" simpleOptions).1
        "rain_light" 0 =
      ((play ManagerState.empty.init "rain_light" simpleOptions).1, []) ∧
    getActiveSounds
      (loadResolve
        (stop (play ManagerState.empty.init "rain_light" simpleOptions).1
          "rain_light" 0).1
        "rain_light" true 60).1 = ["rain_light"] := by
  norm_num [play, stop, loadResolve, loadAudioBufferStart, extractLoad,
    bufferSet, assocSet, lookupTrack, findBuffer, getActiveSounds, jsOr,
    jsTruthy, ManagerState.init, ManagerState.empty, simpleOptions,
    List.find?, max_def]

/-- C4 counterexample: with no buffer cached, a second `loadAudioBuffer`
call for an identifier whose first load is still in flight starts a second
fetch chain (the cache is the only guard), leaving two outstanding loads
for the same identifier — the claimed in-flight deduplication does not
exist. -/
theorem claim_C4_counterexample :
    (loadAudioBufferStart
      (loadAudioBufferStart ManagerState.empty.init "rain_light" none).1
      "rain_light" none).2 = [AudioEvent.fetchStarted "rain_light"] ∧
    (loadAudioBufferStart
      (loadAudioBufferStart ManagerState.empty.init "rain_light" none).1
      "rain_light" none).1.inFlightLoads =
      [("rain_light", none), ("rain_light", none)] := by
  norm_num [loadAudioBufferStart, findBuffer, ManagerState.init,
    ManagerState.empty, List.find?]

/-- C4 (amended): loading is idempotent only for already-cached
identifiers — a second call returns the cached buffer with no new fetch and
leaves the state unchanged; a call for an uncached identifier always starts
a fresh fetch chain, so a call while a load is in flight raises the number
of outstanding chains for that identifier by one. -/
theorem claim_C4_amended (s : ManagerState) (soundId : String)
    (cb : Option PlayOptions) (dur : ℚ) :
    (findBuffer s soundId = some dur →
       loadAudioBufferStart s soundId cb =
         (s, [AudioEvent.cacheHit soundId])) ∧
    (findBuffer s soundId = none →
       (loadAudioBufferStart s soundId cb).1.inFlightLoads =
         s.inFlightLoads ++ [(soundId, cb)] ∧
       (loadAudioBufferStart s soundId cb).2 =
         [AudioEvent.fetchStarted soundId] ∧
       (loadAudioBufferStart s soundId cb).1.inFlightLoads.countP
           (fun p => p.1 = soundId) =
         s.inFlightLoads.countP (fun p => p.1 = soundId) + 1) := by
  constructor
  · intro h
    simp [loadAudioBufferStart, h]
  · intro h
    simp [loadAudioBufferStart, h, List.countP_append]

/-- An initialized manager with the "rain_light" buffer cached. -/
def cachedState : ManagerState :=
  { ManagerState.empty with
    initialized := true,
    audioBuffers := [("rain_light", 60)] }

/-- C4 witness: the amended theorem applied to the cached state. -/
theorem claim_C4_amended_witness :
    loadAudioBufferStart cachedState "rain_light" none =
      (cachedState, [AudioEvent.cacheHit "rain_light"]) :=
  (claim_C4_amended cachedState "rain_light" none 60).1 rfl

/-- An initialized manager that has already recorded a permanent load
failure for "rain_light". -/
def failedState : ManagerState :=
  { ManagerState.empty with
    initialized := true,
    failedLoads := ["rain_light"] }

/-- C5 counterexample: with "rain_light" recorded in `failedLoads`, a new
`play` does NOT fail fast — it starts a fresh fetch chain over the path
variants, exactly as if the failure had never been recorded. -/
theorem claim_C5_counterexample :
    (play failedState "rain_light" simpleOptions).2 =
      [AudioEvent.loadDeferred "rain_light",
       AudioEvent.fetchStarted "rain_light"] ∧
    (play failedState "rain_light" simpleOptions).1.inFlightLoads =
      [("rain_light", some simpleOptions)] := by
  norm_num [play, loadAudioBufferStart, findBuffer, failedState,
    ManagerState.empty, simpleOptions, List.find?]

/-- C5 (amended): a permanent load failure is recorded in `failedLoads` and
reported by `getState`, but it is never consulted: a later `play` for the
(still uncached) identifier re-attempts the fetch chain regardless of the
recorded failure, and the failure record is not cleared. -/
theorem claim_C5_amended (s : ManagerState) (soundId : String)
    (options : PlayOptions) (hinit : s.initialized = true)
    (hmiss : findBuffer s soundId = none)
    (hfail : soundId ∈ s.failedLoads) :
    (play s soundId options).2 =
      [AudioEvent.loadDeferred soundId, AudioEvent.fetchStarted soundId] ∧
    (play s soundId options).1.inFlightLoads =
      s.inFlightLoads ++ [(soundId, some options)] ∧
    (play s soundId options).1.failedLoads = s.failedLoads ∧
    soundId ∈ getStateFailedLoads (play s soundId options).1 := by
  refine ⟨?_, ?_, ?_, ?_⟩ <;>
    simp [play, loadAudioBufferStart, getStateFailedLoads, hinit, hmiss, hfail]

/-- C5 witness: the amended theorem applied to the failed-load state. -/
theorem claim_C5_amended_witness :
    "rain_light" ∈ getStateFailedLoads
      (play failedState "rain_light" simpleOptions).1 :=
  (claim_C5_amended failedState "rain_light" simpleOptions rfl rfl
    (by simp [failedState, ManagerState.empty])).2.2.2

/-- C6 counterexample: stopping a playing track with a positive fade-out
leaves the identifier in `getActiveSounds()` until the scheduled removal
fires — immediately after `stop(id, 5)` the identifier is still active
(marked fading-out), refuting "after the stop the identifier is absent"
for every fade-out duration. -/
theorem claim_C6_counterexample :
    "rain_light" ∈ getActiveSounds (stop playingState "rain_light" 5).1 := by
  norm_num [stop, lookupTrack, playingState, settledTrack,
    ManagerState.empty, getActiveSounds, assocSet, List.find?]

/-- A string never survives filtering by "not equal to it". -/
lemma not_mem_filter_ne_self (l : List String) (soundId : String) :
    soundId ∉ l.filter (fun i => ¬ i = soundId) := by
  simp [List.mem_filter]

/-- A key never survives `Map.delete` of itself. -/
lemma not_mem_map_fst_assocDelete (m : List (String × AudioTrack))
    (soundId : String) :
    soundId ∉ (assocDelete m soundId).map (·.1) := by
  simp only [assocDelete, List.mem_map, List.mem_filter]
  rintro ⟨p, ⟨-, hpred⟩, hfst⟩
  simp [hfst] at hpred

/-- Replacing the entry for a present key makes `find?` return the new
value. -/
lemma find?_map_replace : ∀ (m : List (String × AudioTrack))
    (soundId : String) (t : AudioTrack),
    m.any (fun p => p.1 = soundId) = true →
    (m.map (fun p => if p.1 = soundId then (soundId, t) else p)).find?
      (fun p => p.1 = soundId) = some (soundId, t)
  | [], soundId, t, h => by simp at h
  | p :: rest, soundId, t, h => by
    by_cases hp : p.1 = soundId
    · simp [List.find?, hp]
    · have hrest : rest.any (fun q => q.1 = soundId) = true := by
        rcases List.any_eq_true.mp h with ⟨q, hq, hq2⟩
        rcases List.mem_cons.mp hq with rfl | hq
        · exact absurd (of_decide_eq_true hq2) hp
        · exact List.any_eq_true.mpr ⟨q, hq, hq2⟩
      simpa [List.find?, hp] using find?_map_replace rest soundId t hrest

/-- Appending the entry for an absent key makes `find?` return it. -/
lemma find?_append_singleton : ∀ (m : List (String × AudioTrack))
    (soundId : String) (t : AudioTrack),
    m.any (fun p => p.1 = soundId) = false →
    (m ++ [(soundId, t)]).find? (fun p => p.1 = soundId) =
      some (soundId, t)
  | [], soundId, t, _ => by simp [List.find?]
  | p :: rest, soundId, t, h => by
    have hp : (decide (p.1 = soundId)) = false ∧
        rest.any (fun q => q.1 = soundId) = false := by
      simpa [List.any_cons] using h
    simpa [List.find?, hp.1] using
      find?_append_singleton rest soundId t hp.2

/-- After `Map.set`, looking the key up finds the new value. -/
lemma find?_assocSet_self (m : List (String × AudioTrack)) (soundId : String)
    (t : AudioTrack) :
    (assocSet m soundId t).find? (fun p => p.1 = soundId) =
      some (soundId, t) := by
  unfold assocSet
  by_cases h : m.any (fun p => p.1 = soundId)
  · rw [if_pos h]
    exact find?_map_replace m soundId t h
  · rw [if_neg h]
    exact find?_append_singleton m soundId t (Bool.eq_false_iff.mpr h)

/-- Unfolding `stop` on a playing identifier. -/
lemma stop_eq_of_playing {s : ManagerState} {soundId : String}
    {track : AudioTrack} (htrack : lookupTrack s soundId = some track)
    (fade : ℚ) :
    stop s soundId fade =
      if fade > 0 then
        ({ s with
            loopTimeouts := s.loopTimeouts.filter (fun i => ¬ i = soundId),
            activeTracks := assocSet s.activeTracks soundId
              { track with isFadingOut := true },
            pendingStopRemovals := s.pendingStopRemovals ++ [(soundId, fade)] },
         [AudioEvent.stopCmd soundId fade,
          AudioEvent.fadeScheduled soundId track.volume 0 fade])
      else
        ({ s with
            loopTimeouts := s.loopTimeouts.filter (fun i => ¬ i = soundId),
            activeTracks := assocDelete s.activeTracks soundId },
         [AudioEvent.stopCmd soundId fade]) := by
  simp only [stop, htrack]

/-- C6 (amended): `stop(id, fade)` is a no-op when the identifier has no
active track; otherwise it always cancels the armed loop timer, and the
identifier leaves `getActiveSounds()` immediately when `fade ≤ 0`, while
for `fade > 0` the track is first marked fading-out (still active), a
removal is scheduled, and the identifier is absent once that scheduled
removal fires. -/
theorem claim_C6_amended (s : ManagerState) (soundId : String) (fade : ℚ) :
    (lookupTrack s soundId = none → stop s soundId fade = (s, [])) ∧
    (∀ track, lookupTrack s soundId = some track →
       soundId ∉ (stop s soundId fade).1.loopTimeouts ∧
       (¬ fade > 0 → soundId ∉ getActiveSounds (stop s soundId fade).1) ∧
       (fade > 0 →
          (∃ t2, lookupTrack (stop s soundId fade).1 soundId = some t2 ∧
            t2.isFadingOut = true) ∧
          (soundId, fade) ∈ (stop s soundId fade).1.pendingStopRemovals ∧
          soundId ∉ getActiveSounds
            (fireStopRemoval (stop s soundId fade).1 soundId))) := by
  constructor
  · intro h
    simp [stop, h]
  · intro track htrack
    rw [stop_eq_of_playing htrack fade]
    by_cases hf : fade > 0
    · rw [if_pos hf]
      refine ⟨not_mem_filter_ne_self _ _, fun h0 => absurd hf h0, fun _ => ?_⟩
      refine ⟨⟨{ track with isFadingOut := true }, ?_, rfl⟩, ?_, ?_⟩
      · show (List.find? _ (assocSet _ soundId _)).map (·.2) = _
        rw [find?_assocSet_self]
        rfl
      · exact List.mem_append.mpr (Or.inr (by simp))
      · exact not_mem_map_fst_assocDelete _ _
    · rw [if_neg hf]
      exact ⟨not_mem_filter_ne_self _ _,
        fun _ => not_mem_map_fst_assocDelete _ _,
        fun h => absurd h hf⟩

/-- C6 witness: the amended theorem applied to the playing state with
fade 0 — the identifier is gone immediately. -/
theorem claim_C6_amended_witness :
    "rain_light" ∉ getActiveSounds (stop playingState "rain_light" 0).1 :=
  (((claim_C6_amended playingState "rain_light" 0).2 settledTrack
    rfl).2.1 (by norm_num))

/-- A `stop` on a playing identifier always opens its event trace with the
stop command carrying the given fade-out. -/
lemma stop_trace_of_playing {s : ManagerState} {soundId : String}
    {track : AudioTrack} (htrack : lookupTrack s soundId = some track)
    (fade : ℚ) :
    ∃ evs, (stop s soundId fade).2 =
      AudioEvent.stopCmd soundId fade :: evs := by
  unfold stop
  rw [htrack]
  split_ifs <;> exact ⟨_, rfl⟩

/-- C10: replacing a settled track.  When the buffer is cached and a
settled (non-fading-out) track exists for the identifier, `play` first
issues a stop whose fade-out equals `options.fadeInDuration || 0`; when the
existing track is already fading out, `play` issues no stop at all for the
identifier. -/
theorem claim_C10_replacePlay (s : ManagerState) (soundId : String)
    (options : PlayOptions) (track : AudioTrack) (dur : ℚ)
    (hinit : s.initialized = true)
    (hbuf : findBuffer s soundId = some dur)
    (htrack : lookupTrack s soundId = some track) :
    (track.isFadingOut = false →
      ((play s soundId options).2).head? =
        some (AudioEvent.stopCmd soundId (jsOr options.fadeInDuration 0))) ∧
    (track.isFadingOut = true →
      ∀ fade, AudioEvent.stopCmd soundId fade ∉ (play s soundId options).2) := by
  constructor
  · intro hfad
    obtain ⟨evs0, hevs⟩ :=
      stop_trace_of_playing htrack (jsOr options.fadeInDuration 0)
    simp [play, hinit, hbuf, htrack, hfad, hevs]
  · intro hfad fade hmem
    simp only [play, hinit, hbuf, htrack, hfad, scheduleLoop] at hmem
    simp at hmem
    split_ifs at hmem <;> simp_all [scheduleLoop]

/-- C10 witness: the theorem applied to the settled playing state — the
trace opens with `stop("rain_light", 0)` since the incoming play has no
fade-in. -/
theorem claim_C10_replacePlay_witness :
    ((play playingState "rain_light" simpleOptions).2).head? =
      some (AudioEvent.stopCmd "rain_light"
        (jsOr simpleOptions.fadeInDuration 0)) :=
  (claim_C10_replacePlay playingState "rain_light" simpleOptions
    settledTrack 60 rfl rfl rfl).1 rfl

end Skypin
